import Mathlib

/-!
Shallow embedding of `src/consumers/consumer_pinkston.py`.

The Python program tails a line-delimited JSON file, normalizes each event
(`process_message`), and writes each normalized record to two SQLite sinks
(`insert_message` from the external collaborator module, and `insert_insight`
defined in this file's source).  We model:

* Python values appearing in a parsed JSON object as `JValue`
  (floats/ints as exact rationals);
* `str.split()`, `str.strip()`, text-file line iteration, and the numeric
  coercions `float(...)` / `int(...)` as executable Lean functions;
* the two sinks as lists (the insight sink rows carry the auto-increment id);
* one pass of the `while True` body (open/seek/iterate/sleep, lines 181-212)
  as `runCycle`, including the CPython behaviour that `file.tell()` raises
  `OSError` ("telling position disabled by next() call") when called inside
  `for line in file`, which the generic `except Exception` turns into
  `sys.exit(11)`;
* the `main` startup sequence with its exit codes.

`json.loads` and the wall clock are external library effects: they are passed
in as parameters (`parse`, `now`).  The primary-store insert lives in
`sqlite_consumer_case.py`, outside the given sources; it is modelled from the
spec as a single append.
-/

/-- Values a parsed JSON object field can hold.  JSON/Python numbers are
modelled as exact rationals. -/
inductive JValue
  | jnull
  | jbool (b : Bool)
  | jnum (q : ℚ)
  | jstr (s : String)
  deriving DecidableEq, Repr

/-- Python truthiness of a `JValue`, as used by `raw_message.get("message", "") or ""`. -/
def pyTruthy : JValue → Bool
  | .jnull => false
  | .jbool b => b
  | .jnum q => decide (q ≠ 0)
  | .jstr s => decide (s ≠ "")

/-- Python `str` whitespace (the characters `str.split()` and `str.strip()`
treat as separators, restricted to ASCII). -/
def isPySpace (c : Char) : Bool :=
  c = ' ' || c = '\t' || c = '\n' || c = '\r' || c = '\u000b' || c = '\u000c'

/-- Python `str.strip()` on a character list: drop leading and trailing whitespace. -/
def pyStrip (cs : List Char) : List Char :=
  ((cs.dropWhile isPySpace).reverse.dropWhile isPySpace).reverse

/-- Helper for `pySplit`: `acc` is the (reversed) token currently being read. -/
def pySplitAux (acc : Option (List Char)) : List Char → List (List Char)
  | [] => match acc with
    | none => []
    | some t => [t.reverse]
  | c :: cs =>
    if isPySpace c then
      match acc with
      | none => pySplitAux none cs
      | some t => t.reverse :: pySplitAux none cs
    else
      match acc with
      | none => pySplitAux (some [c]) cs
      | some t => pySplitAux (some (c :: t)) cs

/-- Python `str.split()` with no argument: the list of maximal runs of
non-whitespace characters. -/
def pySplit (cs : List Char) : List (List Char) :=
  pySplitAux none cs

/-- Helper for `pyLines`: `acc` is the (reversed) current line so far. -/
def pyLinesAux (acc : List Char) : List Char → List (List Char)
  | [] => if acc.isEmpty then [] else [acc.reverse]
  | c :: cs =>
    if c = '\n' then (acc.reverse ++ ['\n']) :: pyLinesAux [] cs
    else pyLinesAux (c :: acc) cs

/-- Iterating a Python text file yields each line with its terminating
newline kept; a final segment with no terminator is still yielded. -/
def pyLines (cs : List Char) : List (List Char) :=
  pyLinesAux [] cs

/-- Digits to a natural number, most significant first. -/
def digitsToNat (cs : List Char) : ℕ :=
  cs.foldl (fun acc c => 10 * acc + (c.toNat - '0'.toNat)) 0

/-- Unsigned part of Python `float(str)` for plain decimal literals
(`"12"`, `"12."`, `".5"`, `"0.87"`); anything else fails. -/
def parseUnsignedFloat (cs : List Char) : Option ℚ :=
  let intPart := cs.takeWhile Char.isDigit
  let rest := cs.dropWhile Char.isDigit
  match rest with
  | [] => if intPart.isEmpty then none else some (mkRat (digitsToNat intPart) 1)
  | '.' :: frac =>
    if frac.all Char.isDigit && !(intPart.isEmpty && frac.isEmpty) then
      some (mkRat (digitsToNat intPart * 10 ^ frac.length + digitsToNat frac)
        (10 ^ frac.length))
    else none
  | _ => none

/-- Python `float(str)` modelled on stripped simple decimal literals with an
optional sign; a non-numeric string such as `"abc"` fails (Python raises
`ValueError`). -/
def parsePyFloatStr (s : String) : Option ℚ :=
  match pyStrip s.data with
  | '-' :: rest => (parseUnsignedFloat rest).map Neg.neg
  | '+' :: rest => parseUnsignedFloat rest
  | cs => parseUnsignedFloat cs

/-- Python `float(x)` on a JSON field value: numbers pass through, booleans
become 0/1, numeric strings are parsed, everything else raises
(`TypeError`/`ValueError`), modelled as `none`. -/
def pyFloat : JValue → Option ℚ
  | .jnum q => some q
  | .jbool b => some (if b then 1 else 0)
  | .jstr s => parsePyFloatStr s
  | .jnull => none

/-- Python `int(str)` modelled on stripped decimal integer literals with an
optional sign; `int("3.7")` raises, so a dotted string fails here too. -/
def parsePyIntStr (s : String) : Option ℤ :=
  match pyStrip s.data with
  | '-' :: rest =>
    if !rest.isEmpty && rest.all Char.isDigit then some (-(digitsToNat rest : ℤ)) else none
  | '+' :: rest =>
    if !rest.isEmpty && rest.all Char.isDigit then some (digitsToNat rest : ℤ) else none
  | cs =>
    if !cs.isEmpty && cs.all Char.isDigit then some (digitsToNat cs : ℤ) else none

/-- Python `int(x)` on a JSON field value: numbers truncate toward zero,
booleans become 0/1, integer strings are parsed, everything else raises. -/
def pyInt : JValue → Option ℤ
  | .jnum q => some (if 0 ≤ q then ⌊q⌋ else ⌈q⌉)
  | .jbool b => some (if b then 1 else 0)
  | .jstr s => parsePyIntStr s
  | .jnull => none

/-- A raw message: the Python dict produced by `json.loads` for one line,
restricted to the keys the consumer reads.  `none` models an absent key
(`dict.get` returns Python `None`/the supplied default). -/
structure RawMessage where
  message : Option JValue
  author : Option JValue
  timestamp : Option JValue
  category : Option JValue
  sentiment : Option JValue
  keyword_mentioned : Option JValue
  message_length : Option JValue
  deriving DecidableEq, Repr

/-- The processed message built by `process_message` (source lines 65-76). -/
structure Processed where
  message : String
  author : Option JValue
  timestamp : Option JValue
  category : Option JValue
  sentiment : ℚ
  sentiment_label : String
  keyword_mentioned : Option JValue
  message_length : ℤ
  word_count : ℕ
  processed_at : String
  deriving DecidableEq, Repr

/-- Embedding of `process_message` (source lines 46-81).  The body's
exceptions (uncoercible `sentiment` or `message_length`, non-string
`message`) are caught by the function's own `try`, giving `none`.
`datetime.utcnow().isoformat()` is passed in as `now`. -/
def process_message (raw : RawMessage) (now : String) : Option Processed :=
  let tv0 := raw.message.getD (.jstr "")
  let tv := if pyTruthy tv0 then tv0 else JValue.jstr ""
  match pyFloat (raw.sentiment.getD (.jnum 0)) with
  | none => none
  | some sentiment =>
    match tv with
    | .jstr text =>
      let word_count := (pySplit text.data).length
      let label :=
        if mkRat 6 10 < sentiment then "high"
        else if mkRat 4 10 ≤ sentiment then "medium"
        else "low"
      let mlen? :=
        match raw.message_length with
        | none => some (Int.ofNat text.length)
        | some v => pyInt v
      match mlen? with
      | none => none
      | some mlen =>
        some { message := text
               author := raw.author
               timestamp := raw.timestamp
               category := raw.category
               sentiment := sentiment
               sentiment_label := label
               keyword_mentioned := raw.keyword_mentioned
               message_length := mlen
               word_count := word_count
               processed_at := now }
    | _ => none

/-- Log events the consumer emits, tagged by source site and level. -/
inductive LogMsg
  | infoProcessed
  | errorProcessing
  | infoInsertedInsight
  | errorInsertInsight (m : String)
  | errorFileNotFound
  | errorReading
  deriving DecidableEq, Repr

/-- Outcome of one SQLite operation performed by the insight-store insert;
the connection/execute machinery is external, so it is an oracle here. -/
inductive DBOutcome
  | ok
  | fail (m : String)
  deriving DecidableEq, Repr

/-- One row of the `insights_pinkston` table: the auto-increment `id`
plus the inserted record fields. -/
structure InsightRow where
  id : ℕ
  record : Processed
  deriving DecidableEq, Repr

/-- The two sinks: the primary table (external `sqlite_consumer_case`)
and the `insights_pinkston` table. -/
structure Sinks where
  primary : List Processed
  insight : List InsightRow
  deriving DecidableEq, Repr

/-- Modelled from the spec: the primary store's `insert` operation lives in
`sqlite_consumer_case.py`, which is not among the given sources; per the spec
it "accepts a NormalizedRecord-shaped insert" and each record "produces
exactly one row in the primary table", so one call appends one row. -/
def insert_message (p : Processed) (primary : List Processed) : List Processed :=
  primary ++ [p]

/-- Embedding of `insert_insight` (source lines 119-150).  The body performs
exactly one `INSERT` attempt, whose outcome is the `db` oracle; the
`except` clause logs the failure and falls through, so the function always
returns.  Result: new sink contents, logs, and the number of insert
attempts made. -/
def insert_insight (db : DBOutcome) (p : Processed) (sink : List InsightRow) :
    List InsightRow × List LogMsg × ℕ :=
  match db with
  | .ok => (sink ++ [⟨sink.length + 1, p⟩], [.infoInsertedInsight], 1)
  | .fail m => (sink, [.errorInsertInsight m], 1)

/-- The dual-write step for one successfully processed record
(source lines 197-199): one `insert_message` call, one `insert_insight` call. -/
def handleProcessed (db : DBOutcome) (p : Processed) (s : Sinks) :
    Sinks × List LogMsg :=
  let primary2 := insert_message p s.primary
  let r := insert_insight db p s.insight
  (⟨primary2, r.1⟩, r.2.1)

/-- Result of one pass of the `while True` body: either the pass reached its
`time.sleep` and the loop will run again (`sleepRetry`, carrying the sinks,
the value of `last_position`, and the logs), or `sys.exit(code)` was called
(`fatalExit`). -/
inductive CycleOutcome
  | sleepRetry (s : Sinks) (pos : ℕ) (logs : List LogMsg)
  | fatalExit (code : ℕ) (s : Sinks) (logs : List LogMsg)
  deriving DecidableEq, Repr

/-- Loop body for one non-blank line (source lines 192-202): `json.loads`
failure raises into the generic handler (`sys.exit(11)`); otherwise the
record is processed and, if truthy, inserted into both sinks; then
`last_position = file.tell()` executes — and in CPython `tell()` inside
a line-iteration always raises `OSError` ("telling position disabled by
next() call"), which the generic handler turns into `sys.exit(11)`. -/
def handleLine (parse : List Char → Option RawMessage) (now : String)
    (db : DBOutcome) (l : List Char) (s : Sinks) (logs : List LogMsg) :
    CycleOutcome :=
  match parse (pyStrip l) with
  | none => .fatalExit 11 s (logs ++ [.errorReading])
  | some raw =>
    match process_message raw now with
    | none => .fatalExit 11 s (logs ++ [.errorProcessing, .errorReading])
    | some p =>
      .fatalExit 11 (handleProcessed db p s).1
        (logs ++ [.infoProcessed] ++ (handleProcessed db p s).2 ++ [.errorReading])

/-- The `for line in file` loop (source lines 187-202).  A blank line is
skipped by `continue`; the first non-blank line runs `handleLine`, which
always ends the process, so no line after it is ever reached and `pos` is
returned unchanged only when every line was blank. -/
def drainLines (parse : List Char → Option RawMessage) (now : String)
    (db : DBOutcome) (pos : ℕ) :
    List (List Char) → Sinks → List LogMsg → CycleOutcome
  | [], s, logs => .sleepRetry s pos logs
  | l :: rest, s, logs =>
    if (pyStrip l).isEmpty then
      drainLines parse now db pos rest s logs
    else
      handleLine parse now db l s logs

/-- One pass of the `while True` body (source lines 181-212): open the file
(`none` models `FileNotFoundError`: log, sleep, retry with everything
unchanged), seek to `pos`, iterate the remaining lines. -/
def runCycle (parse : List Char → Option RawMessage) (now : String)
    (db : DBOutcome) (file : Option (List Char)) (pos : ℕ) (s : Sinks) :
    CycleOutcome :=
  match file with
  | none => .sleepRetry s pos [.errorFileNotFound]
  | some content => drainLines parse now db pos (pyLines (content.drop pos)) s []

/-- Embedding of `consume_messages_from_file` up to and including the first
pass of its loop (source lines 157-212): after the init calls, line 179
unconditionally does `last_position = 0`, discarding the argument. -/
def consume_messages_from_file (parse : List Char → Option RawMessage)
    (now : String) (db : DBOutcome) (file : Option (List Char))
    (last_position : ℕ) (s : Sinks) : CycleOutcome :=
  let lastPos : ℕ := 0
  runCycle parse now db file lastPos s

/-- How `consume_messages_from_file` terminates, as observed by `main`:
`sys.exit(code)` raises `SystemExit` (not caught by `except Exception`),
`KeyboardInterrupt` and other exceptions are caught by `main`. -/
inductive ConsumeOutcome
  | sysExit (code : ℕ)
  | keyboardInterrupt
  | raisesOther
  deriving DecidableEq, Repr

/-- The process-level environment `main` runs in: whether each fallible
startup step succeeds, and how consumption ends. -/
structure MainEnv where
  configOk : Bool
  dbFileExists : Bool
  deleteOk : Bool
  initOk : Bool
  consume : ConsumeOutcome
  deriving DecidableEq, Repr

/-- How the `main` process ends: `sys.exit(code)`, or `main` returning
normally after a caught exception (process exit status 0). -/
inductive MainResult
  | exitWith (code : ℕ)
  | returnsNormally
  deriving DecidableEq, Repr

/-- Embedding of the `main` function (source lines 219-265): STEP 1 config read
(failure → `sys.exit(1)`), STEP 2 delete a pre-existing DB file
(failure → `sys.exit(2)`), STEP 3 init (failure → `sys.exit(3)`),
STEP 4 consume, whose `SystemExit` propagates while `KeyboardInterrupt`
and any other exception are caught and logged. -/
def mainProgram (env : MainEnv) : MainResult :=
  if !env.configOk then .exitWith 1
  else if env.dbFileExists && !env.deleteOk then .exitWith 2
  else if !env.initOk then .exitWith 3
  else
    match env.consume with
    | .sysExit c => .exitWith c
    | .keyboardInterrupt => .returnsNormally
    | .raisesOther => .returnsNormally

/-- Whether the cycle ended in `sys.exit`. -/
def cycleIsExit : CycleOutcome → Bool
  | .sleepRetry _ _ _ => false
  | .fatalExit _ _ _ => true

/-- Exit code of a fatal cycle (0 when the cycle slept normally). -/
def cycleCode : CycleOutcome → ℕ
  | .sleepRetry _ _ _ => 0
  | .fatalExit c _ _ => c

/-- The `last_position` value carried into the next cycle (0 when the
process exited). -/
def cyclePos : CycleOutcome → ℕ
  | .sleepRetry _ pos _ => pos
  | .fatalExit _ _ _ => 0

/-- Primary-store contents after the cycle. -/
def cyclePrimary : CycleOutcome → List Processed
  | .sleepRetry s _ _ => s.primary
  | .fatalExit _ s _ => s.primary

/-- A raw message as parsed from a well-formed line: only `sentiment`
present (value 1). -/
def rawEx : RawMessage :=
  { message := none, author := none, timestamp := none, category := none,
    sentiment := some (.jnum 1), keyword_mentioned := none,
    message_length := none }

/-- A raw message whose `sentiment` is present but is a non-numeric string. -/
def rawAbc : RawMessage :=
  { rawEx with sentiment := some (.jstr "abc") }

/-- A raw message with every key absent. -/
def blankRaw : RawMessage :=
  { message := none, author := none, timestamp := none, category := none,
    sentiment := none, keyword_mentioned := none, message_length := none }

/-- A raw message with text `"a  b"` and nothing else. -/
def rawAB : RawMessage :=
  { blankRaw with message := some (.jstr "a  b") }

/-- A raw message carrying only the given numeric sentiment. -/
def mkSent (q : ℚ) : RawMessage :=
  { blankRaw with sentiment := some (.jnum q) }

/-- Concrete model of `json.loads` for the example files: the two line
contents `good1` and `good2` stand for valid JSON encodings of `rawEx`;
every other content is malformed and raises `JSONDecodeError`. -/
def parseEx (l : List Char) : Option RawMessage :=
  if l = "good1".data then some rawEx
  else if l = "good2".data then some rawEx
  else none

/-- Example file: one valid line, one malformed line, one more valid line. -/
def fileC1 : List Char := ("good1\nbad\ngood2\n").data

/-- Example file: two complete (newline-terminated) valid lines followed by
an incomplete trailing line. -/
def fileC2 : List Char := ("good1\ngood2\npar").data

/-- The processed record obtained from `rawEx` at time `"t"`. -/
def pEx : Processed :=
  { message := "", author := none, timestamp := none, category := none,
    sentiment := 1, sentiment_label := "high", keyword_mentioned := none,
    message_length := 0, word_count := 0, processed_at := "t" }

/-- The processed record obtained from `mkSent (mkRat 61 100)` at time
`"t"`. -/
def p061 : Processed :=
  { pEx with sentiment := mkRat 61 100 }

/-- The processed record obtained from `rawAB` at time `"t"`: text
`"a  b"`, two tokens, declared length defaulted to `len("a  b")` = 4. -/
def pAB : Processed :=
  { pEx with
    message := "a  b",
    sentiment := 0,
    sentiment_label := "low",
    message_length := 4,
    word_count := 2 }

/-- Environment in which the configuration read fails. -/
def envC8 : MainEnv :=
  { configOk := false, dbFileExists := false, deleteOk := true,
    initOk := true, consume := .keyboardInterrupt }

/-- Inversion for `process_message`: every successfully produced record has
its `word_count`, `sentiment_label` and `processed_at` fields determined by
its own `message` and `sentiment` fields, exactly as lines 55-75 compute
them. -/
theorem process_message_inv (raw : RawMessage) (now : String) (p : Processed)
    (h : process_message raw now = some p) :
    p.word_count = (pySplit p.message.data).length ∧
    p.sentiment_label =
      (if mkRat 6 10 < p.sentiment then "high"
       else if mkRat 4 10 ≤ p.sentiment then "medium" else "low") ∧
    p.processed_at = now := by
  simp only [process_message] at h
  split at h
  · exact absurd h (by simp)
  · split at h
    · split at h
      · exact absurd h (by simp)
      · injection h with h
        subst h
        exact ⟨rfl, rfl, rfl⟩
    · exact absurd h (by simp)

/-- Splitting a list of whitespace characters yields no tokens. -/
theorem pySplitAux_ws (cs : List Char) (hws : ∀ c ∈ cs, isPySpace c = true) :
    pySplitAux none cs = [] := by
  induction cs with
  | nil => rfl
  | cons c cs ih =>
    have hc : isPySpace c = true := hws c (by simp)
    simp only [pySplitAux, hc, if_pos]
    exact ih fun d hd => hws d (by simp [hd])

/-- Helper: whitespace then `b` splits to the single token `b`. -/
theorem pySplitAux_spaces_b (n : ℕ) :
    pySplitAux none (List.replicate n ' ' ++ ['b']) = [['b']] := by
  induction n with
  | zero => rfl
  | succ n ih =>
    simpa only [List.replicate_succ, List.cons_append, pySplitAux] using ih

/-- The loop body for a non-blank line always performs `sys.exit(11)`. -/
theorem handleLine_exit (parse : List Char → Option RawMessage) (now : String)
    (db : DBOutcome) (l : List Char) (s : Sinks) (logs : List LogMsg) :
    ∃ s2 logs2, handleLine parse now db l s logs = .fatalExit 11 s2 logs2 := by
  unfold handleLine
  split
  · exact ⟨_, _, rfl⟩
  · split
    · exact ⟨_, _, rfl⟩
    · exact ⟨_, _, rfl⟩

/-- The only `sys.exit` the read loop can perform carries code 11. -/
theorem drainLines_code (parse : List Char → Option RawMessage) (now : String)
    (db : DBOutcome) (pos : ℕ) :
    ∀ (ls : List (List Char)) (s : Sinks) (logs : List LogMsg)
      (c : ℕ) (s2 : Sinks) (logs2 : List LogMsg),
      drainLines parse now db pos ls s logs = .fatalExit c s2 logs2 → c = 11 := by
  intro ls
  induction ls with
  | nil =>
    intro s logs c s2 logs2 h
    exact absurd h (by simp [drainLines])
  | cons l rest ih =>
    intro s logs c s2 logs2 h
    by_cases hb : (pyStrip l).isEmpty
    · rw [drainLines, if_pos hb] at h
      exact ih s logs c s2 logs2 h
    · rw [drainLines, if_neg hb] at h
      obtain ⟨s3, logs3, h3⟩ := handleLine_exit parse now db l s logs
      rw [h3] at h
      injection h with h1 _ _
      exact h1.symm

/-- If any line from the current offset is non-blank, the read loop ends in
`sys.exit(11)`. -/
theorem drainLines_exit_of_nonblank (parse : List Char → Option RawMessage)
    (now : String) (db : DBOutcome) (pos : ℕ) :
    ∀ (ls : List (List Char)) (s : Sinks) (logs : List LogMsg),
      (∃ l ∈ ls, (pyStrip l).isEmpty = false) →
      ∃ s2 logs2, drainLines parse now db pos ls s logs = .fatalExit 11 s2 logs2 := by
  intro ls
  induction ls with
  | nil =>
    intro s logs h
    exact absurd h (by simp)
  | cons l rest ih =>
    intro s logs h
    by_cases hb : (pyStrip l).isEmpty
    · rw [drainLines, if_pos hb]
      refine ih s logs ?_
      rcases h with ⟨l2, hl2, hne⟩
      rcases List.mem_cons.mp hl2 with h' | hmem
      · subst h'
        rw [hb] at hne
        exact absurd hne (by simp)
      · exact ⟨l2, hmem, hne⟩
    · rw [drainLines, if_neg hb]
      exact handleLine_exit parse now db l s logs

/-- The control-flow outcome of the read loop (whether it exits, the exit
code, the offset carried forward, and the primary-store contents) does not
depend on the insight-store insert outcome. -/
theorem drainLines_db_indep (parse : List Char → Option RawMessage)
    (now : String) (db1 db2 : DBOutcome) (pos : ℕ) :
    ∀ (ls : List (List Char)) (s : Sinks) (logs : List LogMsg),
      cycleIsExit (drainLines parse now db1 pos ls s logs) =
        cycleIsExit (drainLines parse now db2 pos ls s logs) ∧
      cycleCode (drainLines parse now db1 pos ls s logs) =
        cycleCode (drainLines parse now db2 pos ls s logs) ∧
      cyclePos (drainLines parse now db1 pos ls s logs) =
        cyclePos (drainLines parse now db2 pos ls s logs) ∧
      cyclePrimary (drainLines parse now db1 pos ls s logs) =
        cyclePrimary (drainLines parse now db2 pos ls s logs) := by
  intro ls
  induction ls with
  | nil => intro s logs; exact ⟨rfl, rfl, rfl, rfl⟩
  | cons l rest ih =>
    intro s logs
    by_cases hb : (pyStrip l).isEmpty
    · rw [drainLines, drainLines, if_pos hb, if_pos hb]
      exact ih s logs
    · rw [drainLines, drainLines, if_neg hb, if_neg hb]
      unfold handleLine
      split
      · exact ⟨rfl, rfl, rfl, rfl⟩
      · split
        · exact ⟨rfl, rfl, rfl, rfl⟩
        · refine ⟨rfl, rfl, rfl, ?_⟩
          cases db1 <;> cases db2 <;> rfl

/-- C3 (amended): if `sentiment` is absent, `process_message` defaults it to
0.0 and keeps the record (shown here for a message with the other optional
coercible fields absent); but if `sentiment` is present and not coercible to
a number, `float(...)` raises inside `process_message`, which logs and
returns `None` — the record is dropped as a per-line failure. -/
theorem C3_sentiment_default_amended :
    (∀ (raw : RawMessage) (now : String),
       raw.sentiment = none → raw.message = none → raw.message_length = none →
       ∃ p, process_message raw now = some p ∧ p.sentiment = 0)
  ∧ (∀ (raw : RawMessage) (now : String),
       raw.sentiment = some (.jstr "abc") → process_message raw now = none) := by
  constructor
  · intro raw now h1 h2 h3
    obtain ⟨m, a, t, c, se, k, ml⟩ := raw
    simp only at h1 h2 h3
    subst h1; subst h2; subst h3
    exact ⟨_, rfl, rfl⟩
  · intro raw now h1
    obtain ⟨m, a, t, c, se, k, ml⟩ := raw
    simp only at h1
    subst h1
    rfl

/-- Witness for C3: the all-absent raw message is normalized with sentiment
defaulted to 0. -/
theorem C3_witness :
    blankRaw.sentiment = none ∧ blankRaw.message = none ∧
    blankRaw.message_length = none ∧
    ∃ p, process_message blankRaw "t" = some p ∧ p.sentiment = 0 :=
  ⟨rfl, rfl, rfl, C3_sentiment_default_amended.1 blankRaw "t" rfl rfl rfl⟩

/-- Counterexample for C3 as stated: a raw message whose `sentiment` is the
non-numeric string `"abc"` does not yield a record with sentiment 0.0 — it
is dropped (`process_message` returns `None`). -/
theorem C3_counterexample :
    rawAbc.sentiment = some (.jstr "abc") ∧
    process_message rawAbc "t" = none := by
  exact ⟨rfl, rfl⟩

/-- C4: for every successfully normalized record the `sentiment_label` is the
pure function of the coerced sentiment given by lines 58-63 (`> 0.6 → high`,
`0.4 ≤ x ≤ 0.6 → medium`, `< 0.4 → low`; the thresholds are written
`mkRat 6 10` and `mkRat 4 10`, equal to the source literals 0.6 and 0.4 as
the first two conjuncts record), and at the boundaries sentiment 0.6 maps to
medium, 0.61 to high, 0.4 to medium, 0.39 to low. -/
theorem C4_sentiment_label :
    mkRat 6 10 = (0.6 : ℚ) ∧ mkRat 4 10 = (0.4 : ℚ)
  ∧ (∀ (raw : RawMessage) (now : String) (p : Processed),
       process_message raw now = some p →
       p.sentiment_label =
         (if mkRat 6 10 < p.sentiment then "high"
          else if mkRat 4 10 ≤ p.sentiment then "medium" else "low"))
  ∧ (process_message (mkSent (mkRat 6 10)) "t").map Processed.sentiment_label
      = some "medium"
  ∧ (process_message (mkSent (mkRat 61 100)) "t").map Processed.sentiment_label
      = some "high"
  ∧ (process_message (mkSent (mkRat 4 10)) "t").map Processed.sentiment_label
      = some "medium"
  ∧ (process_message (mkSent (mkRat 39 100)) "t").map Processed.sentiment_label
      = some "low" :=
  ⟨by norm_num [Rat.mkRat_eq_div], by norm_num [Rat.mkRat_eq_div],
   fun raw now p h => (process_message_inv raw now p h).2.1,
   by decide, by decide, by decide, by decide⟩

/-- Witness for C4: the record normalized from sentiment 0.61 carries the
label dictated by its coerced sentiment, namely high. -/
theorem C4_witness :
    process_message (mkSent (mkRat 61 100)) "t" = some p061 ∧
    p061.sentiment_label =
      (if mkRat 6 10 < p061.sentiment then "high"
       else if mkRat 4 10 ≤ p061.sentiment then "medium" else "low") ∧
    p061.sentiment_label = "high" :=
  ⟨by decide,
   C4_sentiment_label.2.2.1 (mkSent (mkRat 61 100)) "t" p061 (by decide),
   rfl⟩

/-- C5: for every successfully normalized record, `word_count` is the number
of whitespace-delimited tokens of the message text (`len(text.split())`);
splitting a whitespace-only text yields no tokens; and `a`, a run of n ≥ 1
spaces, then `b` always yields exactly the two tokens `a` and `b`; in
particular the record for text `"a  b"` has `word_count` 2 and the record
for an absent text has `word_count` 0. -/
theorem C5_word_count :
    (∀ (raw : RawMessage) (now : String) (p : Processed),
       process_message raw now = some p →
       p.word_count = (pySplit p.message.data).length)
  ∧ (∀ cs : List Char, (∀ c ∈ cs, isPySpace c = true) → pySplit cs = [])
  ∧ (∀ n : ℕ, 1 ≤ n →
       pySplit ('a' :: (List.replicate n ' ' ++ ['b'])) = [['a'], ['b']])
  ∧ (process_message rawAB "t").map Processed.word_count = some 2
  ∧ (process_message blankRaw "t").map Processed.word_count = some 0 := by
  refine ⟨fun raw now p h => (process_message_inv raw now p h).1,
          fun cs h => pySplitAux_ws cs h, ?_, by decide, by decide⟩
  intro n hn
  obtain ⟨m, rfl⟩ : ∃ m, n = m + 1 := ⟨n - 1, by omega⟩
  show pySplitAux none ('a' :: (List.replicate (m + 1) ' ' ++ ['b'])) = [['a'], ['b']]
  simp only [pySplitAux, isPySpace, List.replicate_succ, List.cons_append]
  simpa using pySplitAux_spaces_b m

/-- Witness for C5: concrete instantiations of the three quantified parts. -/
theorem C5_witness :
    ((∀ c ∈ [' ', '\t'], isPySpace c = true) ∧ pySplit [' ', '\t'] = []) ∧
    (1 ≤ 2 ∧ pySplit ('a' :: (List.replicate 2 ' ' ++ ['b'])) = [['a'], ['b']]) ∧
    (process_message rawAB "t" = some pAB ∧
      pAB.word_count = (pySplit pAB.message.data).length) :=
  ⟨⟨by decide, C5_word_count.2.1 [' ', '\t'] (by decide)⟩,
   ⟨by decide, C5_word_count.2.2.1 2 (by decide)⟩,
   ⟨by decide, C5_word_count.1 rawAB "t" pAB (by decide)⟩⟩

/-- C6: for every successfully normalized record the dual-write step performs
exactly one insert into the primary store and one into the insight store,
unconditionally appending with no deduplication: running it twice with the
same record (an offset-reset replay) leaves two separate rows in each sink,
the insight copies under distinct auto-increment ids. -/
theorem C6_dual_write_no_dedup (p : Processed) (s : Sinks) :
    (handleProcessed .ok p s).1.primary = s.primary ++ [p] ∧
    (handleProcessed .ok p s).1.insight =
      s.insight ++ [⟨s.insight.length + 1, p⟩] ∧
    (handleProcessed .ok p ((handleProcessed .ok p s).1)).1.primary =
      s.primary ++ [p, p] ∧
    (handleProcessed .ok p ((handleProcessed .ok p s).1)).1.insight =
      s.insight ++ [⟨s.insight.length + 1, p⟩, ⟨s.insight.length + 2, p⟩] := by
  refine ⟨rfl, rfl, by simp [handleProcessed, insert_message], ?_⟩
  simp [handleProcessed, insert_insight, insert_message]

/-- C7: when the source file is absent the cycle is transient: no writes, an
error log entry, the same sinks and offset are carried to the next cycle
after the sleep, and the process does not exit. -/
theorem C7_source_absent_transient (parse : List Char → Option RawMessage)
    (now : String) (db : DBOutcome) (pos : ℕ) (s : Sinks) :
    runCycle parse now db none pos s = .sleepRetry s pos [.errorFileNotFound] :=
  rfl

/-- C9: `insert_insight` makes exactly one insert attempt per call; on a
failed insert it only logs (the `except` swallows the exception, so the
function returns normally), leaving the sink unchanged; and the read loop's
control flow — whether it exits, with which code, the offset carried
forward, and the primary-store contents — is identical whether the
insight-store insert succeeds or fails: the failure aborts nothing, is never
retried, and the record is not re-queued. -/
theorem C9_insight_write_failure_contained :
    (∀ (db : DBOutcome) (p : Processed) (sink : List InsightRow),
       (insert_insight db p sink).2.2 = 1)
  ∧ (∀ (m : String) (p : Processed) (sink : List InsightRow),
       (insert_insight (.fail m) p sink).1 = sink ∧
       (insert_insight (.fail m) p sink).2.1 = [.errorInsertInsight m])
  ∧ (∀ (parse : List Char → Option RawMessage) (now : String)
       (db1 db2 : DBOutcome) (pos : ℕ) (ls : List (List Char)) (s : Sinks)
       (logs : List LogMsg),
       cycleIsExit (drainLines parse now db1 pos ls s logs) =
         cycleIsExit (drainLines parse now db2 pos ls s logs) ∧
       cycleCode (drainLines parse now db1 pos ls s logs) =
         cycleCode (drainLines parse now db2 pos ls s logs) ∧
       cyclePos (drainLines parse now db1 pos ls s logs) =
         cyclePos (drainLines parse now db2 pos ls s logs) ∧
       cyclePrimary (drainLines parse now db1 pos ls s logs) =
         cyclePrimary (drainLines parse now db2 pos ls s logs)) :=
  ⟨fun db p sink => by cases db <;> rfl,
   fun m p sink => ⟨rfl, rfl⟩,
   fun parse now db1 db2 pos ls s logs =>
     drainLines_db_indep parse now db1 db2 pos ls s logs⟩

/-- C10: `consume_messages_from_file` ignores its `last_position` argument —
line 179 resets it to 0 before the first cycle, so the first cycle always
reads from byte 0; concretely, even called with offset 999 (past the end of
the example file) it still reads the file from the beginning and inserts the
first line's record. -/
theorem C10_last_position_ignored :
    (∀ (parse : List Char → Option RawMessage) (now : String) (db : DBOutcome)
       (file : Option (List Char)) (lp : ℕ) (s : Sinks),
       consume_messages_from_file parse now db file lp s =
         runCycle parse now db file 0 s)
  ∧ consume_messages_from_file parseEx "t" .ok (some fileC2) 999 ⟨[], []⟩ =
      .fatalExit 11 ⟨[pEx], [⟨1, pEx⟩]⟩
        [.infoProcessed, .infoInsertedInsight, .errorReading] :=
  ⟨fun _ _ _ _ _ _ => rfl, by decide⟩

/-- C8: the process exits 1 on configuration read failure, 2 on failure to
delete a pre-existing store file, 3 on store initialization failure, and
propagates `sys.exit` from the tailing loop — whose only fatal exit carries
code 11; a `KeyboardInterrupt` or any other exception escaping the consumer
is caught and logged, and `main` returns normally. -/
theorem C8_exit_codes :
    (∀ env : MainEnv, env.configOk = false → mainProgram env = .exitWith 1)
  ∧ (∀ env : MainEnv, env.configOk = true → env.dbFileExists = true →
       env.deleteOk = false → mainProgram env = .exitWith 2)
  ∧ (∀ env : MainEnv, env.configOk = true →
       (env.dbFileExists && !env.deleteOk) = false → env.initOk = false →
       mainProgram env = .exitWith 3)
  ∧ (∀ (env : MainEnv) (c : ℕ), env.configOk = true →
       (env.dbFileExists && !env.deleteOk) = false → env.initOk = true →
       env.consume = .sysExit c → mainProgram env = .exitWith c)
  ∧ (∀ (parse : List Char → Option RawMessage) (now : String)
       (db : DBOutcome) (file : Option (List Char)) (pos : ℕ) (s : Sinks)
       (c : ℕ) (s2 : Sinks) (logs2 : List LogMsg),
       runCycle parse now db file pos s = .fatalExit c s2 logs2 → c = 11)
  ∧ (∀ env : MainEnv, env.configOk = true →
       (env.dbFileExists && !env.deleteOk) = false → env.initOk = true →
       (env.consume = .keyboardInterrupt ∨ env.consume = .raisesOther) →
       mainProgram env = .returnsNormally) := by
  refine ⟨?_, ?_, ?_, ?_, ?_, ?_⟩
  · intro env h
    simp [mainProgram, h]
  · intro env h1 h2 h3
    simp [mainProgram, h1, h2, h3]
  · intro env h1 h2 h3
    simp [mainProgram, h1, h2, h3]
  · intro env c h1 h2 h3 h4
    simp [mainProgram, h1, h2, h3, h4]
  · intro parse now db file pos s c s2 logs2 h
    cases file with
    | none => exact absurd h (by simp [runCycle])
    | some content =>
      exact drainLines_code parse now db pos
        (pyLines (content.drop pos)) s [] c s2 logs2 h
  · intro env h1 h2 h3 h4
    rcases h4 with h4 | h4 <;> simp [mainProgram, h1, h2, h3, h4]

/-- Witness for C8: in the environment where the configuration read fails,
the process exits with code 1. -/
theorem C8_witness :
    envC8.configOk = false ∧ mainProgram envC8 = .exitWith 1 :=
  ⟨rfl, C8_exit_codes.1 envC8 rfl⟩

/-- C1 (amended): a malformed JSON line is not a per-line failure — nothing
in the read loop catches per-line exceptions, so any exception reaching the
loop body ends the process with `sys.exit(11)`.  In fact every cycle that
sees a non-blank line exits with code 11, because `file.tell()` raises
`OSError` during line iteration; on the file with one valid line, one
malformed line, and one more valid line, the cycle inserts exactly one row
into each sink (from the first valid line) and the process terminates with
exit code 11 before the malformed line is even parsed. -/
theorem C1_malformed_line_amended :
    (∀ (parse : List Char → Option RawMessage) (now : String) (db : DBOutcome)
       (pos : ℕ) (content : List Char) (s : Sinks),
       (∃ l ∈ pyLines (content.drop pos), (pyStrip l).isEmpty = false) →
       ∃ s2 logs2,
         runCycle parse now db (some content) pos s = .fatalExit 11 s2 logs2)
  ∧ runCycle parseEx "t" .ok (some fileC1) 0 ⟨[], []⟩ =
      .fatalExit 11 ⟨[pEx], [⟨1, pEx⟩]⟩
        [.infoProcessed, .infoInsertedInsight, .errorReading] :=
  ⟨fun parse now db pos content s h =>
     drainLines_exit_of_nonblank parse now db pos
       (pyLines (content.drop pos)) s [] h,
   by decide⟩

/-- Witness for C1: the example file has a non-blank line, and the cycle on
it ends in `sys.exit(11)`. -/
theorem C1_witness :
    (∃ l ∈ pyLines (fileC1.drop 0), (pyStrip l).isEmpty = false) ∧
    ∃ s2 logs2, runCycle parseEx "t" .ok (some fileC1) 0 ⟨[], []⟩ =
      .fatalExit 11 s2 logs2 :=
  ⟨by decide,
   C1_malformed_line_amended.1 parseEx "t" .ok 0 fileC1 ⟨[], []⟩ (by decide)⟩

/-- Counterexample to C1 as stated: on the file with one valid line, one
malformed line (`parseEx` rejects `bad`), and one more valid line, one
cycle does not leave two rows per sink with the loop continuing — it leaves
exactly one row in each sink and the process terminates via `sys.exit(11)`. -/
theorem C1_counterexample :
    runCycle parseEx "t" .ok (some fileC1) 0 ⟨[], []⟩ =
      .fatalExit 11 ⟨[pEx], [⟨1, pEx⟩]⟩
        [.infoProcessed, .infoInsertedInsight, .errorReading] ∧
    parseEx (pyStrip ("bad").data) = none ∧
    ([pEx] : List Processed).length = 1 :=
  ⟨by decide, by decide, rfl⟩

/-- C2 evaluated at the failing input: on a snapshot holding two complete
newline-terminated lines and an incomplete third, the cycle does not stop
after the complete lines with the offset advanced to their byte length — the
first `last_position = file.tell()` raises `OSError`, the generic handler
runs `sys.exit(11)`, and the offset is never advanced at all (only the first
line's row reaches the sinks). -/
theorem C2_offset_never_advances :
    runCycle parseEx "t" .ok (some fileC2) 0 ⟨[], []⟩ =
      .fatalExit 11 ⟨[pEx], [⟨1, pEx⟩]⟩
        [.infoProcessed, .infoInsertedInsight, .errorReading] ∧
    cycleIsExit (runCycle parseEx "t" .ok (some fileC2) 0 ⟨[], []⟩) = true ∧
    (pyLines fileC2).length = 3 :=
  ⟨by decide, by decide, by decide⟩
